import Mathlib

/-
Verification of the core simulation engine and level generator of the
"Great Heist" game (components/Game.tsx, primary variant).

Modelling conventions:
* Pixel coordinates, scores and times are rationals (the source uses JS
  numbers; every constant and every arithmetic operation appearing in the
  claims is exact rational arithmetic).
* The source draws randomness from Math.random().  All random draws are
  supplied explicitly through an Oracle record, so each generator is a pure
  function of the floor number and the oracle; every theorem quantifies over
  the oracle.
* The guard patrol step moves a guard by (ces θ, sin θ)·speed toward its
  target waypoint, θ = atan2(dy, dx); this displacement is irrational in
  general, so it too is supplied by the oracle (field guardStep).  No claim
  depends on its value.  The waypoint test dist < 5 is embedded as
  dx^2 + dy^2 < 25, which is equivalent because dist = sqrt (dx^2 + dy^2)
  and both sides are nonnegative.
-/

namespace Heist

/-- Source constant CANVAS_WIDTH = 600. -/
def CANVAS_WIDTH : ℕ := 600

/-- Source constant CANVAS_HEIGHT = 400. -/
def CANVAS_HEIGHT : ℕ := 400

/-- Source constant PLAYER_SIZE = 30. -/
def PLAYER_SIZE : ℕ := 30

/-- Source constant SPEED = 5 (player pixels per tick). -/
def SPEED : ℕ := 5

/-- Source constant INITIAL_TIME_PER_FLOOR = 60 seconds. -/
def INITIAL_TIME_PER_FLOOR : ℕ := 60

/-- A 2D point in canvas pixel space (source type Point). -/
structure Point where
  x : ℚ
  y : ℚ
deriving DecidableEq

/-- An axis-aligned wall rectangle (source type Wall). -/
structure Wall where
  x : ℚ
  y : ℚ
  w : ℚ
  h : ℚ
deriving DecidableEq

/-- A collectible bill (source type Money). -/
structure Money where
  id : String
  pos : Point
  value : ℚ
  collected : Bool
deriving DecidableEq

/-- A patrolling guard (source type Guard). -/
structure Guard where
  id : String
  pos : Point
  path : List Point
  currentPathIndex : ℕ
  speed : ℚ
deriving DecidableEq

/-- The aggregate game snapshot (source type GameState). -/
structure GameState where
  playerPos : Point
  currentFloor : ℕ
  score : ℚ
  money : List Money
  walls : List Wall
  guards : List Guard
  password : String
  foundPassword : Bool
  doorPos : Point
  isPaused : Bool
  isGameOver : Bool
  showTerminal : Bool
  lastPasswordFound : String
  timeLeft : ℚ
deriving DecidableEq

/-- Environment record supplying every Math.random() draw and the
irrational patrol displacement (see the header comment).  guardRand i is
the triple of unit-interval draws used for guard i (start x, start y,
path width); moneyPos i is the position finally chosen by the rejection
sampler for bill i; passDraw feeds the password; guardStep g is the
per-tick displacement of guard g toward its target waypoint. -/
structure Oracle where
  guardRand : ℕ → ℚ × ℚ × ℚ
  moneyPos : ℕ → Point
  passDraw : ℕ
  guardStep : Guard → Point

/-- Body of the obstacle loop of the source generateWalls: the obstacle
pushed at loop index i, with seed = floor * 12345. -/
def obstacleWall (floor i : ℕ) : Wall :=
  let seed := floor * 12345
  { x := ((50 + (seed + i * 150) % (CANVAS_WIDTH - 150) : ℕ) : ℚ),
    y := ((50 + (seed + i * 100) % (CANVAS_HEIGHT - 150) : ℕ) : ℚ),
    w := ((20 + (seed * (i + 1)) % 100 : ℕ) : ℚ),
    h := ((20 + (seed * (i + 2)) % 100 : ℕ) : ℚ) }

/-- Source generateWalls: four boundary rectangles of thickness 10 plus
min(3+floor, 8) interior obstacles placed by the arithmetic seed
floor * 12345 (the loop body is obstacleWall). -/
def generateWalls (floor : ℕ) : List Wall :=
  let numObstacles := min (3 + floor) 8
  [ { x := 0, y := 0, w := (CANVAS_WIDTH : ℚ), h := 10 },
    { x := 0, y := ((CANVAS_HEIGHT - 10 : ℕ) : ℚ), w := (CANVAS_WIDTH : ℚ), h := 10 },
    { x := 0, y := 0, w := 10, h := (CANVAS_HEIGHT : ℚ) },
    { x := ((CANVAS_WIDTH - 10 : ℕ) : ℚ), y := 0, w := 10, h := (CANVAS_HEIGHT : ℚ) } ]
  ++ (List.range numObstacles).map (obstacleWall floor)

/-- Source generateGuards: min(1 + floor/2, 4) guards, each with a random
start position, a two-point horizontal patrol path, currentPathIndex 0 and
speed 1.5 + 0.2 * floor.  The three random draws for guard i come from the
oracle. -/
def generateGuards (floor : ℕ) (rand : ℕ → ℚ × ℚ × ℚ) : List Guard :=
  let numGuards := min (1 + floor / 2) 4
  (List.range numGuards).map (fun i =>
    let startX : ℚ := 200 + (rand i).1 * ((CANVAS_WIDTH : ℚ) - 300)
    let startY : ℚ := 100 + (rand i).2.1 * ((CANVAS_HEIGHT : ℚ) - 200)
    let pathWidth : ℚ := 100 + (rand i).2.2 * 100
    { id := "guard-" ++ toString i,
      pos := { x := startX, y := startY },
      path := [{ x := startX, y := startY }, { x := startX + pathWidth, y := startY }],
      currentPathIndex := 0,
      speed := 3 / 2 + (floor : ℚ) * (1 / 5) })

/-- Source generateMoney validity test for a candidate position: the point
must not fall within the 15 px-expanded bounding box of any wall. -/
def moneyPosValid (p : Point) (walls : List Wall) : Bool :=
  ! walls.any (fun w =>
      decide (p.x > w.x - 15 ∧ p.x < w.x + w.w + 15 ∧ p.y > w.y - 15 ∧ p.y < w.y + w.h + 15))

/-- Fuel-indexed run of the unbounded source rejection-sampling while
loop for one bill: repeatedly take the next draw from the stream until a
valid position appears; none means the given number of iterations did not
find one.  The source loop terminates exactly when some fuel suffices. -/
def sampleMoneyPos (walls : List Wall) (draws : ℕ → Point) : ℕ → Option Point
  | 0 => none
  | fuel + 1 =>
    if moneyPosValid (draws 0) walls then some (draws 0)
    else sampleMoneyPos walls (fun n => draws (n + 1)) fuel

/-- Source generateMoney: 5 + 2*floor bills, each worth 100 * floor and
uncollected; the position finally chosen by the rejection sampler for bill
i is supplied by the oracle (the sampler itself is analysed separately via
sampleMoneyPos, because it need not terminate). -/
def generateMoney (floor : ℕ) (pos : ℕ → Point) : List Money :=
  (List.range (5 + floor * 2)).map (fun i =>
    { id := "money-" ++ toString i, pos := pos i, value := 100 * (floor : ℚ),
      collected := false })

/-- Source generatePassword: Math.floor(1000 + random()*9000).toString(),
a number in 1000..9999 rendered in decimal; the draw comes from the
oracle. -/
def generatePassword (r : ℕ) : String :=
  toString (1000 + r % 9000)

/-- Source initFloor: build the full floor snapshot for the given floor
number, carrying in the given score; every other field is freshly
generated or reset. -/
def initFloor (o : Oracle) (floor : ℕ) (prevScore : ℚ) : GameState :=
  { playerPos := { x := 50, y := 50 },
    currentFloor := floor,
    score := prevScore,
    money := generateMoney floor o.moneyPos,
    walls := generateWalls floor,
    guards := generateGuards floor o.guardRand,
    password := generatePassword o.passDraw,
    foundPassword := false,
    doorPos := { x := (CANVAS_WIDTH : ℚ) - 50, y := (CANVAS_HEIGHT : ℚ) - 50 },
    isPaused := false,
    isGameOver := false,
    showTerminal := false,
    lastPasswordFound := "",
    timeLeft := (INITIAL_TIME_PER_FLOOR : ℚ) }

/-- Source resetGame: back to floor 1 with score 0. -/
def resetGame (o : Oracle) : GameState :=
  initFloor o 1 0

/-- Source nextFloor: advance to floor + 1 carrying the cumulative score. -/
def nextFloor (o : Oracle) (s : GameState) : GameState :=
  initFloor o (s.currentFloor + 1) s.score

/-- Source handlePasswordSubmit: on a match advance to the next floor; on a
mismatch close the terminal and nudge the player 40 px up-left. -/
def handlePasswordSubmit (o : Oracle) (inputCode : String) (s : GameState) : GameState :=
  if inputCode = s.password then nextFloor o s
  else { s with showTerminal := false,
                playerPos := { x := s.playerPos.x - 40, y := s.playerPos.y - 40 } }

/-- The held movement keys, collapsed to one boolean per axis direction
(ArrowUp/KeyW etc. act identically in the source). -/
structure Movement where
  up : Bool
  down : Bool
  left : Bool
  right : Bool
deriving DecidableEq

/-- Horizontal delta of the movement intent: -SPEED if left is held plus
+SPEED if right is held. -/
def moveDx (mv : Movement) : ℚ :=
  (if mv.left then -(SPEED : ℚ) else 0) + (if mv.right then (SPEED : ℚ) else 0)

/-- Vertical delta of the movement intent: -SPEED if up is held plus
+SPEED if down is held. -/
def moveDy (mv : Movement) : ℚ :=
  (if mv.up then -(SPEED : ℚ) else 0) + (if mv.down then (SPEED : ℚ) else 0)

/-- Source collides helper inside update: does the player footprint placed
at (nx, ny) overlap some wall rectangle. -/
def collides (walls : List Wall) (nx ny : ℚ) : Bool :=
  walls.any (fun w =>
    decide (nx + (PLAYER_SIZE : ℚ) > w.x ∧ nx < w.x + w.w ∧
            ny + (PLAYER_SIZE : ℚ) > w.y ∧ ny < w.y + w.h))

/-- Source clamp of the resolved x coordinate:
Math.max(10, Math.min(CANVAS_WIDTH - PLAYER_SIZE - 10, x)). -/
def clampX (x : ℚ) : ℚ :=
  max 10 (min ((CANVAS_WIDTH : ℚ) - (PLAYER_SIZE : ℚ) - 10) x)

/-- Source clamp of the resolved y coordinate:
Math.max(10, Math.min(CANVAS_HEIGHT - PLAYER_SIZE - 10, y)). -/
def clampY (y : ℚ) : ℚ :=
  max 10 (min ((CANVAS_HEIGHT : ℚ) - (PLAYER_SIZE : ℚ) - 10) y)

/-- Source movement resolution: attempt the X move against the old y and
revert it on overlap, then the Y move against the old x, then the combined
pair (reverting both on overlap), and finally clamp into the play area. -/
def moveResolve (walls : List Wall) (pp : Point) (mv : Movement) : Point :=
  let newX0 := pp.x + moveDx mv
  let newY0 := pp.y + moveDy mv
  let newX1 := if collides walls newX0 pp.y then pp.x else newX0
  let newY1 := if collides walls pp.x newY0 then pp.y else newY0
  let p2 := if collides walls newX1 newY1 then (pp.x, pp.y) else (newX1, newY1)
  { x := clampX p2.1, y := clampY p2.2 }

/-- The player position produced by the movement phase of a tick. -/
def playerNext (prev : GameState) (mv : Movement) : Point :=
  moveResolve prev.walls prev.playerPos mv

/-- Player center used by every proximity test: position + PLAYER_SIZE/2. -/
def playerCenter (pp : Point) : Point :=
  { x := pp.x + (PLAYER_SIZE : ℚ) / 2, y := pp.y + (PLAYER_SIZE : ℚ) / 2 }

/-- Source collection test: the bill is uncollected and within the 25 px
rectangular tolerance of the player center. -/
def moneyHit (pp : Point) (m : Money) : Bool :=
  !m.collected &&
    decide (|m.pos.x - (playerCenter pp).x| < 25 ∧ |m.pos.y - (playerCenter pp).y| < 25)

/-- Per-bill effect of the collection phase: mark a hit bill collected,
leave every other bill unchanged. -/
def collectOne (pp : Point) (m : Money) : Money :=
  if moneyHit pp m then { m with collected := true } else m

/-- Total value added to the score by the collection phase: the sum of the
values of the bills hit on this tick. -/
def moneyGain (pp : Point) (ms : List Money) : ℚ :=
  ((ms.filter (moneyHit pp)).map (fun m => m.value)).sum

/-- Source guard patrol step: if the squared distance to the target
waypoint is below 25 (i.e. dist < 5) advance the path index cyclically
without moving; otherwise move by the oracle-supplied displacement toward
the target (cos/sin of the atan2 angle times speed in the source). -/
def guardTick (step : Guard → Point) (g : Guard) : Guard :=
  let target := g.path.getD g.currentPathIndex { x := 0, y := 0 }
  let distSq := (target.x - g.pos.x) ^ 2 + (target.y - g.pos.y) ^ 2
  if distSq < 25 then
    { g with currentPathIndex := (g.currentPathIndex + 1) % g.path.length }
  else
    { g with pos := { x := g.pos.x + (step g).x, y := g.pos.y + (step g).y } }

/-- Source capture test: the guard is within the 25 px rectangular
tolerance of the player center. -/
def caughtBy (pp : Point) (g : Guard) : Bool :=
  decide (|g.pos.x - (playerCenter pp).x| < 25 ∧ |g.pos.y - (playerCenter pp).y| < 25)

/-- Source fixed code-station position (100, 300). -/
def passwordStation : Point :=
  { x := 100, y := 300 }

/-- Source password-discovery test: player center within 40 px of the code
station. -/
def nearStation (pp : Point) : Bool :=
  decide (|passwordStation.x - (playerCenter pp).x| < 40 ∧
          |passwordStation.y - (playerCenter pp).y| < 40)

/-- Source terminal trigger test: player center within 40 px of the door. -/
def nearDoor (doorPos : Point) (pp : Point) : Bool :=
  decide (|doorPos.x - (playerCenter pp).x| < 40 ∧ |doorPos.y - (playerCenter pp).y| < 40)

/-- Source update, the per-tick transition: do nothing unless the floor is
live; decrement the timer and on timeout penalise the score by 500
(floored at 0) and regenerate the same floor; otherwise resolve movement,
collect bills, move guards, end the game atomically on capture, and
finally record password discovery, terminal triggering and the new
timer. -/
def tick (o : Oracle) (mv : Movement) (dt : ℚ) (prev : GameState) : GameState :=
  if prev.isPaused || prev.isGameOver || prev.showTerminal then prev
  else
    let newTimeLeft := prev.timeLeft - dt
    if newTimeLeft ≤ 0 then
      initFloor o prev.currentFloor (max 0 (prev.score - 500))
    else
      let newPos := playerNext prev mv
      let newMoney := prev.money.map (collectOne newPos)
      let newScore := prev.score + moneyGain newPos prev.money
      let newGuards := prev.guards.map (guardTick o.guardStep)
      if newGuards.any (caughtBy newPos) then
        { prev with isGameOver := true }
      else
        { prev with
            playerPos := newPos,
            money := newMoney,
            guards := newGuards,
            score := newScore,
            foundPassword := prev.foundPassword || nearStation newPos,
            showTerminal := prev.showTerminal || nearDoor prev.doorPos newPos,
            timeLeft := newTimeLeft }

/-- Iterated ticks with per-tick oracle, intent and elapsed time. -/
def runTicks (inputs : List (Oracle × Movement × ℚ)) (s : GameState) : GameState :=
  inputs.foldl (fun st inp => tick inp.1 inp.2.1 inp.2.2 st) s

/-- The no-keys-held movement intent. -/
def mvNone : Movement :=
  { up := false, down := false, left := false, right := false }

/-- A trivial concrete oracle used for concrete evaluations. -/
def oracle0 : Oracle :=
  { guardRand := fun _ => (0, 0, 0),
    moneyPos := fun _ => { x := 0, y := 0 },
    passDraw := 0,
    guardStep := fun _ => { x := 0, y := 0 } }

/-- A small live base state used by the concrete witnesses. -/
def baseState : GameState :=
  { playerPos := { x := 50, y := 50 },
    currentFloor := 1,
    score := 0,
    money := [],
    walls := [],
    guards := [],
    password := "1234",
    foundPassword := false,
    doorPos := { x := 550, y := 350 },
    isPaused := false,
    isGameOver := false,
    showTerminal := false,
    lastPasswordFound := "",
    timeLeft := 60 }

/-- The hold-right movement intent. -/
def mvRight : Movement :=
  { up := false, down := false, left := false, right := true }

/-- The baseState with a single interior wall away from the player. -/
def walledState : GameState :=
  { baseState with walls := [{ x := 200, y := 200, w := 50, h := 50 }] }

/-- A guard standing exactly at the player center of baseState and exactly
at its own first waypoint. -/
def guardOnPlayer : Guard :=
  { id := "guard-0",
    pos := { x := 65, y := 65 },
    path := [{ x := 65, y := 65 }, { x := 165, y := 65 }],
    currentPathIndex := 0,
    speed := 2 }

/-- A bill lying exactly at the player center of baseState. -/
def moneyAtCenter : Money :=
  { id := "money-0", pos := { x := 65, y := 65 }, value := 100, collected := false }

/-- Movement resolution transcribed from the words of the specification:
test the X move alone at (newX, oldY) and accept or revert it, the same
for Y, then test the combined pair and revert entirely when it overlaps a
wall despite each axis passing individually, finally clamp.  Used only to
compare against moveResolve, which is transcribed from the source. -/
def moveResolveSpec (walls : List Wall) (pp : Point) (mv : Movement) : Point :=
  let newX0 := pp.x + moveDx mv
  let newY0 := pp.y + moveDy mv
  let xOK := ! collides walls newX0 pp.y
  let yOK := ! collides walls pp.x newY0
  let x1 := if xOK then newX0 else pp.x
  let y1 := if yOK then newY0 else pp.y
  let p2 := if xOK && yOK && collides walls newX0 newY0 then (pp.x, pp.y) else (x1, y1)
  { x := clampX p2.1, y := clampY p2.2 }

/-- A live tick whose decremented timer is nonpositive regenerates the
same floor with the penalised score. -/
lemma tick_timeout (o : Oracle) (mv : Movement) (dt : ℚ) (prev : GameState)
    (hlive : (prev.isPaused || prev.isGameOver || prev.showTerminal) = false)
    (htimeout : prev.timeLeft - dt ≤ 0) :
    tick o mv dt prev = initFloor o prev.currentFloor (max 0 (prev.score - 500)) := by
  rw [tick]
  simp [hlive, htimeout]

/-- C2: on a live tick where the decremented timer reaches zero or below,
the engine deducts a fixed 500 penalty from the score clamping at 0,
regenerates the same floor index with fresh walls, guards, money and
password, resets timeLeft to the initial budget, and does not set
isGameOver. -/
theorem c2_timeout_resets_floor (o : Oracle) (mv : Movement) (dt : ℚ) (prev : GameState)
    (hlive : (prev.isPaused || prev.isGameOver || prev.showTerminal) = false)
    (htimeout : prev.timeLeft - dt ≤ 0) :
    tick o mv dt prev = initFloor o prev.currentFloor (max 0 (prev.score - 500)) ∧
    (tick o mv dt prev).currentFloor = prev.currentFloor ∧
    (tick o mv dt prev).score = max 0 (prev.score - 500) ∧
    0 ≤ (tick o mv dt prev).score ∧
    (tick o mv dt prev).timeLeft = 60 ∧
    (tick o mv dt prev).isGameOver = false ∧
    (tick o mv dt prev).walls = generateWalls prev.currentFloor ∧
    (tick o mv dt prev).money = generateMoney prev.currentFloor o.moneyPos ∧
    (tick o mv dt prev).guards = generateGuards prev.currentFloor o.guardRand ∧
    (tick o mv dt prev).password = generatePassword o.passDraw := by
  have ht := tick_timeout o mv dt prev hlive htimeout
  refine ⟨ht, ?_⟩
  rw [ht]
  refine ⟨rfl, rfl, le_max_left 0 _, ?_, rfl, rfl, rfl, rfl, rfl⟩
  simp [initFloor, INITIAL_TIME_PER_FLOOR]

/-- Witness for C2: a concrete live state with one second left ticked with
two elapsed seconds resets floor 1 with the score penalty clamped at 0. -/
theorem c2_witness :
    tick oracle0 mvNone 2 { baseState with timeLeft := 1 } =
      initFloor oracle0 1 (max 0 (0 - 500)) ∧
    (tick oracle0 mvNone 2 { baseState with timeLeft := 1 }).timeLeft = 60 ∧
    (tick oracle0 mvNone 2 { baseState with timeLeft := 1 }).isGameOver = false := by
  obtain ⟨h1, _, _, _, h5, h6, _⟩ :=
    c2_timeout_resets_floor oracle0 mvNone 2 { baseState with timeLeft := 1 }
      rfl (by norm_num [baseState])
  exact ⟨h1, h5, h6⟩

/-- C4: when the submitted code equals the password of the floor while the
terminal is open, the submit command closes the terminal, increments the
floor index by exactly one, resets timeLeft to the initial budget, and
carries the cumulative score unchanged into the regenerated state. -/
theorem c4_correct_submit (o : Oracle) (code : String) (s : GameState)
    (hterm : s.showTerminal = true) (hcode : code = s.password) :
    (handlePasswordSubmit o code s).showTerminal = false ∧
    (handlePasswordSubmit o code s).currentFloor = s.currentFloor + 1 ∧
    (handlePasswordSubmit o code s).timeLeft = 60 ∧
    (handlePasswordSubmit o code s).score = s.score := by
  rw [handlePasswordSubmit, if_pos hcode]
  refine ⟨rfl, rfl, ?_, rfl⟩
  simp [nextFloor, initFloor, INITIAL_TIME_PER_FLOOR]

/-- Witness for C4 at a concrete open-terminal state with the matching
code. -/
theorem c4_witness :
    (handlePasswordSubmit oracle0 "1234" { baseState with showTerminal := true }).showTerminal
        = false ∧
    (handlePasswordSubmit oracle0 "1234"
        { baseState with showTerminal := true }).currentFloor = 2 ∧
    (handlePasswordSubmit oracle0 "1234" { baseState with showTerminal := true }).timeLeft = 60 ∧
    (handlePasswordSubmit oracle0 "1234" { baseState with showTerminal := true }).score = 0 := by
  exact c4_correct_submit oracle0 "1234" { baseState with showTerminal := true } rfl rfl

/-- C5: the source movement resolution is exactly the axis-separated
procedure described by the specification: X tested alone and reverted on
overlap, Y symmetrically, the combined pair reverted entirely when it
overlaps despite both axes passing, and a final clamp to the interior. -/
theorem c5_axis_separated (walls : List Wall) (pp : Point) (mv : Movement) :
    moveResolve walls pp mv = moveResolveSpec walls pp mv := by
  unfold moveResolve moveResolveSpec
  cases hc1 : collides walls (pp.x + moveDx mv) pp.y <;>
    cases hc2 : collides walls pp.x (pp.y + moveDy mv) <;>
      simp [hc1, hc2]

/-- A game-over state is frozen: the transition returns it unchanged. -/
lemma tick_of_gameOver (o : Oracle) (mv : Movement) (dt : ℚ) (s : GameState)
    (h : s.isGameOver = true) : tick o mv dt s = s := by
  rw [tick]
  simp [h]

/-- A game-over state is frozen under any sequence of ticks. -/
lemma runTicks_of_gameOver (inputs : List (Oracle × Movement × ℚ)) (s : GameState)
    (h : s.isGameOver = true) : runTicks inputs s = s := by
  induction inputs with
  | nil => rfl
  | cons a l ih =>
    rw [runTicks, List.foldl_cons, tick_of_gameOver a.1 a.2.1 a.2.2 s h]
    exact ih

/-- On a live tick whose timer does not expire, reaching the capture check
with some guard in tolerance sets isGameOver. -/
lemma tick_capture (o : Oracle) (mv : Movement) (dt : ℚ) (prev : GameState)
    (hlive : (prev.isPaused || prev.isGameOver || prev.showTerminal) = false)
    (htime : 0 < prev.timeLeft - dt)
    (hcaught : ((prev.guards.map (guardTick o.guardStep)).any
        (caughtBy (playerNext prev mv))) = true) :
    tick o mv dt prev = { prev with isGameOver := true } := by
  rw [tick]
  simp [hlive, not_le.mpr htime, hcaught]

/-- The baseState with a guard on the player center and one second left on
the clock. -/
def lateCaptureState : GameState :=
  { baseState with guards := [guardOnPlayer], timeLeft := 1 }

/-- The baseState with a guard on the player center. -/
def captureState : GameState :=
  { baseState with guards := [guardOnPlayer] }

/-- The baseState with a bill on the player center and a guard on the
player center. -/
def captureCollectState : GameState :=
  { baseState with money := [moneyAtCenter], guards := [guardOnPlayer] }

/-- C3 counterexample: a live state with a guard exactly on the player
center, whose timer expires on the same tick.  The capture-tolerance
condition holds, yet the tick leaves isGameOver false, because the timeout
branch resets the floor before the capture check is reached. -/
theorem c3_counterexample :
    (lateCaptureState.isPaused || lateCaptureState.isGameOver ||
        lateCaptureState.showTerminal) = false ∧
    caughtBy (playerNext lateCaptureState mvNone)
        (guardTick oracle0.guardStep guardOnPlayer) = true ∧
    (tick oracle0 mvNone 2 lateCaptureState).isGameOver = false := by
  refine ⟨rfl, ?_, ?_⟩
  · norm_num [caughtBy, playerNext, moveResolve, moveDx, moveDy, mvNone, baseState,
      lateCaptureState, guardOnPlayer, guardTick, collides, clampX, clampY, playerCenter,
      CANVAS_WIDTH, CANVAS_HEIGHT, PLAYER_SIZE, SPEED]
  · have h : tick oracle0 mvNone 2 lateCaptureState
        = initFloor oracle0 1 (max 0 (0 - 500)) := by
      rw [tick]
      norm_num [baseState, lateCaptureState]
    rw [h]
    rfl

/-- C3 (amended): on a live tick whose decremented timer stays positive,
a guard within capture tolerance of the player center sets isGameOver,
every subsequent tick leaves the state unchanged until a restart, and the
restart re-enters floor 1 with score 0. -/
theorem c3_capture_freezes (o : Oracle) (mv : Movement) (dt : ℚ) (prev : GameState)
    (hlive : (prev.isPaused || prev.isGameOver || prev.showTerminal) = false)
    (htime : 0 < prev.timeLeft - dt)
    (hcaught : ((prev.guards.map (guardTick o.guardStep)).any
        (caughtBy (playerNext prev mv))) = true) :
    (tick o mv dt prev).isGameOver = true ∧
    (∀ inputs : List (Oracle × Movement × ℚ),
        runTicks inputs (tick o mv dt prev) = tick o mv dt prev) ∧
    (∀ o2 : Oracle, (resetGame o2).currentFloor = 1 ∧ (resetGame o2).score = 0) := by
  have h := tick_capture o mv dt prev hlive htime hcaught
  refine ⟨by rw [h], ?_, fun o2 => ⟨rfl, rfl⟩⟩
  intro inputs
  exact runTicks_of_gameOver inputs _ (by rw [h])

/-- Witness for C3 at a concrete state with a guard on the player center
and a healthy timer. -/
theorem c3_witness :
    (tick oracle0 mvNone 1 captureState).isGameOver = true ∧
    runTicks [(oracle0, mvNone, 1)] (tick oracle0 mvNone 1 captureState) =
      tick oracle0 mvNone 1 captureState ∧
    (resetGame oracle0).currentFloor = 1 ∧ (resetGame oracle0).score = 0 := by
  obtain ⟨h1, h2, h3⟩ :=
    c3_capture_freezes oracle0 mvNone 1 captureState
      rfl (by norm_num [baseState, captureState])
      (by norm_num [caughtBy, playerNext, moveResolve, moveDx, moveDy, mvNone, baseState,
        captureState, guardOnPlayer, guardTick, collides, clampX, clampY, playerCenter,
        CANVAS_WIDTH, CANVAS_HEIGHT, PLAYER_SIZE, SPEED])
  exact ⟨h1, h2 [(oracle0, mvNone, 1)], h3 oracle0⟩

/-- C10: capture is atomic; on a live, non-timeout tick where the capture
check fires, the returned state is the previous state with only isGameOver
set to true, discarding the movement, collections, guard updates and timer
decrement computed earlier in the tick. -/
theorem c10_capture_atomic (o : Oracle) (mv : Movement) (dt : ℚ) (prev : GameState)
    (hlive : (prev.isPaused || prev.isGameOver || prev.showTerminal) = false)
    (htime : 0 < prev.timeLeft - dt)
    (hcaught : ((prev.guards.map (guardTick o.guardStep)).any
        (caughtBy (playerNext prev mv))) = true) :
    tick o mv dt prev = { prev with isGameOver := true } :=
  tick_capture o mv dt prev hlive htime hcaught

/-- Witness for C10 at a concrete capture state: the whole next state is
the previous one with only the game-over flag raised. -/
theorem c10_witness :
    tick oracle0 mvNone 1 captureCollectState
      = { captureCollectState with isGameOver := true } := by
  exact c10_capture_atomic oracle0 mvNone 1 captureCollectState
    rfl (by norm_num [baseState, captureCollectState])
    (by norm_num [caughtBy, playerNext, moveResolve, moveDx, moveDy, mvNone, baseState,
      captureCollectState, guardOnPlayer, guardTick, collides, clampX, clampY, playerCenter,
      CANVAS_WIDTH, CANVAS_HEIGHT, PLAYER_SIZE, SPEED])

/-- A state that is not paused, not game-over and without open terminal,
whose tick neither times out nor captures, steps to the plain updated
state: resolved player position, collected bills, gained score, moved
guards, monotone password and terminal flags, decremented timer. -/
lemma tick_normal (o : Oracle) (mv : Movement) (dt : ℚ) (prev : GameState)
    (hlive : (prev.isPaused || prev.isGameOver || prev.showTerminal) = false)
    (htime : 0 < prev.timeLeft - dt)
    (hnc : ((prev.guards.map (guardTick o.guardStep)).any
        (caughtBy (playerNext prev mv))) = false) :
    tick o mv dt prev = { prev with
        playerPos := playerNext prev mv,
        money := prev.money.map (collectOne (playerNext prev mv)),
        guards := prev.guards.map (guardTick o.guardStep),
        score := prev.score + moneyGain (playerNext prev mv) prev.money,
        foundPassword := prev.foundPassword || nearStation (playerNext prev mv),
        showTerminal := prev.showTerminal || nearDoor prev.doorPos (playerNext prev mv),
        timeLeft := prev.timeLeft - dt } := by
  rw [tick]
  simp [hlive, not_le.mpr htime, hnc]

/-- A paused, game-over or terminal-open state is returned unchanged. -/
lemma tick_frozen (o : Oracle) (mv : Movement) (dt : ℚ) (s : GameState)
    (h : (s.isPaused || s.isGameOver || s.showTerminal) = true) :
    tick o mv dt s = s := by
  rw [tick]
  simp [h]

/-- C7: every generated guard starts with index 0 on a two-point path, the
per-tick patrol update either advances the index cyclically or leaves it
unchanged while preserving the path, and consequently every guard of the
post-tick state satisfies currentPathIndex < path.length whenever every
guard of the pre-tick state does. -/
theorem c7_path_index_invariant (o : Oracle) (mv : Movement) (dt : ℚ) (prev : GameState)
    (hinv : ∀ g ∈ prev.guards, g.currentPathIndex < g.path.length) :
    (∀ floor : ℕ, ∀ rand : ℕ → ℚ × ℚ × ℚ, ∀ g ∈ generateGuards floor rand,
        g.currentPathIndex = 0 ∧ g.path.length = 2) ∧
    (∀ step : Guard → Point, ∀ g : Guard,
        (guardTick step g).path = g.path ∧
        ((guardTick step g).currentPathIndex = (g.currentPathIndex + 1) % g.path.length ∨
          (guardTick step g).currentPathIndex = g.currentPathIndex)) ∧
    (∀ g ∈ (tick o mv dt prev).guards, g.currentPathIndex < g.path.length) := by
  have hgen : ∀ floor : ℕ, ∀ rand : ℕ → ℚ × ℚ × ℚ, ∀ g ∈ generateGuards floor rand,
      g.currentPathIndex = 0 ∧ g.path.length = 2 := by
    intro floor rand g hg
    rw [generateGuards, List.mem_map] at hg
    obtain ⟨i, _, rfl⟩ := hg
    exact ⟨rfl, rfl⟩
  have hstep : ∀ step : Guard → Point, ∀ g : Guard,
      (guardTick step g).path = g.path ∧
      ((guardTick step g).currentPathIndex = (g.currentPathIndex + 1) % g.path.length ∨
        (guardTick step g).currentPathIndex = g.currentPathIndex) := by
    intro step g
    rw [guardTick]
    split
    · exact ⟨rfl, Or.inl rfl⟩
    · exact ⟨rfl, Or.inr rfl⟩
  refine ⟨hgen, hstep, ?_⟩
  have hone : ∀ step : Guard → Point, ∀ g : Guard, g.currentPathIndex < g.path.length →
      (guardTick step g).currentPathIndex < (guardTick step g).path.length := by
    intro step g hg
    obtain ⟨hpath, hidx | hidx⟩ := hstep step g
    · rw [hpath, hidx]
      exact Nat.mod_lt _ (lt_of_le_of_lt (Nat.zero_le _) hg)
    · rw [hpath, hidx]
      exact hg
  cases hfr : (prev.isPaused || prev.isGameOver || prev.showTerminal) with
  | true =>
    rw [tick_frozen o mv dt prev hfr]
    exact hinv
  | false =>
    by_cases htime : prev.timeLeft - dt ≤ 0
    · rw [tick_timeout o mv dt prev hfr htime]
      intro g hg
      obtain ⟨h1, h2⟩ := hgen prev.currentFloor o.guardRand g hg
      rw [h1, h2]
      norm_num
    · cases hc : (prev.guards.map (guardTick o.guardStep)).any
          (caughtBy (playerNext prev mv)) with
      | true =>
        rw [tick_capture o mv dt prev hfr (lt_of_not_le htime) hc]
        exact hinv
      | false =>
        rw [tick_normal o mv dt prev hfr (lt_of_not_le htime) hc]
        intro g hg
        rw [List.mem_map] at hg
        obtain ⟨g0, hg0, rfl⟩ := hg
        exact hone o.guardStep g0 (hinv g0 hg0)

/-- Witness for C7 at a concrete one-guard state. -/
theorem c7_witness :
    (∀ floor : ℕ, ∀ rand : ℕ → ℚ × ℚ × ℚ, ∀ g ∈ generateGuards floor rand,
        g.currentPathIndex = 0 ∧ g.path.length = 2) ∧
    (∀ step : Guard → Point, ∀ g : Guard,
        (guardTick step g).path = g.path ∧
        ((guardTick step g).currentPathIndex = (g.currentPathIndex + 1) % g.path.length ∨
          (guardTick step g).currentPathIndex = g.currentPathIndex)) ∧
    (∀ g ∈ (tick oracle0 mvNone 1 captureState).guards,
        g.currentPathIndex < g.path.length) := by
  exact c7_path_index_invariant oracle0 mvNone 1 captureState (by decide)

/-- C8: for every floor the wall list is the four boundary rectangles of
thickness 10 framing the canvas followed by min(3+floor, 8) interior
obstacles, where obstacle i sits at
x = 50 + (floor*12345 + i*150) mod 450, y = 50 + (floor*12345 + i*100)
mod 250, with width 20 + (floor*12345*(i+1)) mod 100 and height
20 + (floor*12345*(i+2)) mod 100, both within 20..120. -/
theorem c8_generateWalls_layout (floor : ℕ) :
    (generateWalls floor).length = 4 + min (3 + floor) 8 ∧
    (generateWalls floor).take 4 =
      [ { x := 0, y := 0, w := 600, h := 10 },
        { x := 0, y := 390, w := 600, h := 10 },
        { x := 0, y := 0, w := 10, h := 400 },
        { x := 590, y := 0, w := 10, h := 400 } ] ∧
    (∀ i : ℕ, i < min (3 + floor) 8 →
      (generateWalls floor).get? (4 + i) = some
        { x := ((50 + (floor * 12345 + i * 150) % 450 : ℕ) : ℚ),
          y := ((50 + (floor * 12345 + i * 100) % 250 : ℕ) : ℚ),
          w := ((20 + (floor * 12345 * (i + 1)) % 100 : ℕ) : ℚ),
          h := ((20 + (floor * 12345 * (i + 2)) % 100 : ℕ) : ℚ) }) ∧
    (∀ wl ∈ (generateWalls floor).drop 4,
      20 ≤ wl.w ∧ wl.w ≤ 120 ∧ 20 ≤ wl.h ∧ wl.h ≤ 120) := by
  have hd : (generateWalls floor).drop 4
      = (List.range (min (3 + floor) 8)).map (obstacleWall floor) := rfl
  refine ⟨?_, ?_, ?_, ?_⟩
  · rw [generateWalls]
    simp only [List.length_append, List.length_cons, List.length_nil, List.length_map,
      List.length_range]
  · norm_num [generateWalls, CANVAS_WIDTH, CANVAS_HEIGHT]
  · intro i hi
    rw [generateWalls]
    rw [List.get?_append_right (by norm_num)]
    simp only [List.length_cons, List.length_nil]
    rw [show (4 : ℕ) + i - (0 + 1 + 1 + 1 + 1) = i from by omega]
    rw [List.get?_map, List.get?_range hi]
    norm_num [Option.map, obstacleWall, CANVAS_WIDTH, CANVAS_HEIGHT]
  · intro wl hwl
    rw [hd, List.mem_map] at hwl
    obtain ⟨i, _, rfl⟩ := hwl
    have hw : (floor * 12345 * (i + 1)) % 100 < 100 := Nat.mod_lt _ (by norm_num)
    have hh : (floor * 12345 * (i + 2)) % 100 < 100 := Nat.mod_lt _ (by norm_num)
    have hw2 : 20 + (floor * 12345 * (i + 1)) % 100 ≤ 120 := by omega
    have hh2 : 20 + (floor * 12345 * (i + 2)) % 100 ≤ 120 := by omega
    rw [obstacleWall]
    dsimp only
    refine ⟨?_, ?_, ?_, ?_⟩
    · exact_mod_cast Nat.le_add_right 20 _
    · exact_mod_cast hw2
    · exact_mod_cast Nat.le_add_right 20 _
    · exact_mod_cast hh2

/-- Witness for C8 at floor 1 and obstacle index 0. -/
theorem c8_witness :
    (generateWalls 1).length = 8 ∧
    (generateWalls 1).get? 4 = some
      { x := ((50 + (1 * 12345 + 0 * 150) % 450 : ℕ) : ℚ),
        y := ((50 + (1 * 12345 + 0 * 100) % 250 : ℕ) : ℚ),
        w := ((20 + (1 * 12345 * (0 + 1)) % 100 : ℕ) : ℚ),
        h := ((20 + (1 * 12345 * (0 + 2)) % 100 : ℕ) : ℚ) } := by
  obtain ⟨h1, _, h3, _⟩ := c8_generateWalls_layout 1
  exact ⟨by rw [h1]; omega, h3 0 (by omega)⟩

/-- A draw stream that always lands inside the first interior obstacle of
floor 1 (expanded by the 15 px margin). -/
def badDraws : ℕ → Point :=
  fun _ => { x := 250, y := 150 }

/-- A draw stream whose first draw is a point valid against the walls of
floor 1. -/
def goodDraws : ℕ → Point :=
  fun _ => { x := 40, y := 200 }

/-- C9 counterexample: against the generated walls of floor 1 there is a
draw sequence on which the rejection-sampling loop never finds a valid
placement, for any number of iterations, so the loop does not always
terminate. -/
theorem c9_counterexample :
    ¬ ∃ fuel, (sampleMoneyPos (generateWalls 1) badDraws fuel).isSome = true := by
  have hv : moneyPosValid { x := 250, y := 150 } (generateWalls 1) = false := by
    rw [moneyPosValid]
    have hmem : obstacleWall 1 0 ∈ generateWalls 1 := by
      rw [generateWalls]
      refine List.mem_append_right _ ?_
      exact List.mem_map.mpr ⟨0, List.mem_range.mpr (by omega), rfl⟩
    have hone : (fun w => decide ((250 : ℚ) > w.x - 15 ∧ (250 : ℚ) < w.x + w.w + 15 ∧
          (150 : ℚ) > w.y - 15 ∧ (150 : ℚ) < w.y + w.h + 15)) (obstacleWall 1 0) = true := by
      norm_num [obstacleWall, CANVAS_WIDTH, CANVAS_HEIGHT]
    have hany : (generateWalls 1).any (fun w =>
        decide ((250 : ℚ) > w.x - 15 ∧ (250 : ℚ) < w.x + w.w + 15 ∧
          (150 : ℚ) > w.y - 15 ∧ (150 : ℚ) < w.y + w.h + 15)) = true :=
      List.any_eq_true.mpr ⟨obstacleWall 1 0, hmem, hone⟩
    rw [hany]
    rfl
  have key : ∀ fuel : ℕ, ∀ draws : ℕ → Point,
      (∀ n, draws n = { x := 250, y := 150 }) →
      sampleMoneyPos (generateWalls 1) draws fuel = none := by
    intro fuel
    induction fuel with
    | zero => intro draws _; rfl
    | succ n ih =>
      intro draws h
      rw [sampleMoneyPos, h 0, hv]
      simp only [Bool.false_eq_true, if_false]
      exact ih _ (fun m => h (m + 1))
  rintro ⟨fuel, hf⟩
  rw [key fuel badDraws (fun _ => rfl)] at hf
  exact Bool.false_ne_true hf

/-- C9 (amended): for a fixed wall layout the rejection-sampling loop for
one collectible terminates precisely when the draw sequence eventually
produces a point outside the 15 px-expanded bounding box of every wall; it is
not guaranteed to terminate unconditionally. -/
theorem c9_sampling_terminates_iff (walls : List Wall) (draws : ℕ → Point) :
    (∃ fuel, (sampleMoneyPos walls draws fuel).isSome = true)
      ↔ (∃ n, moneyPosValid (draws n) walls = true) := by
  constructor
  · rintro ⟨fuel, hf⟩
    induction fuel generalizing draws with
    | zero => exact absurd hf (by rw [sampleMoneyPos]; exact Bool.false_ne_true)
    | succ n ih =>
      rw [sampleMoneyPos] at hf
      cases hv : moneyPosValid (draws 0) walls with
      | true => exact ⟨0, hv⟩
      | false =>
        rw [hv] at hf
        simp only [Bool.false_eq_true, if_false] at hf
        obtain ⟨m, hm⟩ := ih _ hf
        exact ⟨m + 1, hm⟩
  · rintro ⟨n, hn⟩
    induction n generalizing draws with
    | zero =>
      refine ⟨1, ?_⟩
      rw [sampleMoneyPos, hn]
      rfl
    | succ m ih =>
      cases hv : moneyPosValid (draws 0) walls with
      | true =>
        refine ⟨1, ?_⟩
        rw [sampleMoneyPos, hv]
        rfl
      | false =>
        obtain ⟨fuel, hf⟩ := ih (fun k => draws (k + 1)) hn
        refine ⟨fuel + 1, ?_⟩
        rw [sampleMoneyPos, hv]
        simp only [Bool.false_eq_true, if_false]
        exact hf

/-- Witness for C9: against the walls of floor 1, a stream whose first
draw is the valid point (40, 200) makes the loop terminate. -/
theorem c9_witness :
    ∃ fuel, (sampleMoneyPos (generateWalls 1) goodDraws fuel).isSome = true := by
  refine (c9_sampling_terminates_iff (generateWalls 1) goodDraws).mpr ⟨0, ?_⟩
  norm_num [goodDraws, moneyPosValid, generateWalls, obstacleWall,
    CANVAS_WIDTH, CANVAS_HEIGHT, List.range_succ]

/-- A bill processed by the collection phase is never a hit on a later
tick at the same resolved position: either it was hit and is now
collected, or it was not a hit in the first place. -/
lemma moneyHit_collectOne (pp : Point) (m : Money) :
    moneyHit pp (collectOne pp m) = false := by
  rw [collectOne]
  cases hm : moneyHit pp m with
  | true =>
    simp only [hm, if_true]
    rw [moneyHit]
    rfl
  | false =>
    simp only [hm, Bool.false_eq_true, if_false]

/-- Running the collection phase twice at the same resolved position adds
no further value. -/
lemma moneyGain_after (pp : Point) (ms : List Money) :
    moneyGain pp (ms.map (collectOne pp)) = 0 := by
  rw [moneyGain]
  have hnil : (ms.map (collectOne pp)).filter (moneyHit pp) = [] := by
    rw [List.filter_eq_nil]
    intro a ha
    rw [List.mem_map] at ha
    obtain ⟨m, _, rfl⟩ := ha
    simp [moneyHit_collectOne]
  rw [hnil]
  rfl

/-- The baseState with a single uncollected bill on the player center and
no guards. -/
def collectState : GameState :=
  { baseState with money := [moneyAtCenter] }

/-- C6 counterexample: on a live tick a bill within the collection
tolerance of the player center is NOT collected and its value is NOT
added, because a guard captures the player on the same tick and the
capture discards the collection. -/
theorem c6_counterexample :
    (captureCollectState.isPaused || captureCollectState.isGameOver ||
        captureCollectState.showTerminal) = false ∧
    moneyAtCenter.collected = false ∧
    moneyHit (playerNext captureCollectState mvNone) moneyAtCenter = true ∧
    (tick oracle0 mvNone 1 captureCollectState).money = [moneyAtCenter] ∧
    (tick oracle0 mvNone 1 captureCollectState).score = 0 := by
  have h := tick_capture oracle0 mvNone 1 captureCollectState
    rfl (by norm_num [baseState, captureCollectState])
    (by norm_num [caughtBy, playerNext, moveResolve, moveDx, moveDy, mvNone, baseState,
      captureCollectState, guardOnPlayer, guardTick, collides, clampX, clampY, playerCenter,
      CANVAS_WIDTH, CANVAS_HEIGHT, PLAYER_SIZE, SPEED])
  refine ⟨rfl, rfl, ?_, ?_, ?_⟩
  · norm_num [moneyHit, moneyAtCenter, playerNext, moveResolve, moveDx, moveDy, mvNone,
      baseState, captureCollectState, collides, clampX, clampY, playerCenter,
      CANVAS_WIDTH, CANVAS_HEIGHT, PLAYER_SIZE, SPEED]
  · rw [h]
    rfl
  · rw [h]
    rfl

/-- C6 (amended): on a live tick that neither times out nor ends in
capture, the collection phase maps collectOne over the bills: every
uncollected bill within tolerance of the resolved player center becomes
collected, the score grows by exactly the sum of the values of the bills
hit on this tick, a repeat of the phase at the same position adds nothing,
and a collected bill never reverts within the floor instance. -/
theorem c6_collect_exactly_once (o : Oracle) (mv : Movement) (dt : ℚ) (prev : GameState)
    (hlive : (prev.isPaused || prev.isGameOver || prev.showTerminal) = false)
    (htime : 0 < prev.timeLeft - dt)
    (hnc : ((prev.guards.map (guardTick o.guardStep)).any
        (caughtBy (playerNext prev mv))) = false) :
    (tick o mv dt prev).money = prev.money.map (collectOne (playerNext prev mv)) ∧
    (tick o mv dt prev).score = prev.score + moneyGain (playerNext prev mv) prev.money ∧
    moneyGain (playerNext prev mv) ((tick o mv dt prev).money) = 0 ∧
    (∀ m ∈ prev.money, m.collected = false → moneyHit (playerNext prev mv) m = true →
        (collectOne (playerNext prev mv) m).collected = true) ∧
    (∀ m ∈ prev.money, m.collected = true →
        (collectOne (playerNext prev mv) m).collected = true) := by
  have h := tick_normal o mv dt prev hlive htime hnc
  refine ⟨by rw [h], by rw [h], ?_, ?_, ?_⟩
  · rw [h]
    exact moneyGain_after (playerNext prev mv) prev.money
  · intro m _ _ hm
    rw [collectOne, hm]
    rfl
  · intro m _ hm
    rw [collectOne]
    cases hh : moneyHit (playerNext prev mv) m with
    | true => rfl
    | false => exact hm

/-- Witness for C6 at a concrete state with one bill on the player center
and no guards: the bill is collected and its value credited. -/
theorem c6_witness :
    (tick oracle0 mvNone 1 collectState).money =
      collectState.money.map (collectOne (playerNext collectState mvNone)) ∧
    (tick oracle0 mvNone 1 collectState).score =
      collectState.score + moneyGain (playerNext collectState mvNone) collectState.money ∧
    moneyGain (playerNext collectState mvNone) ((tick oracle0 mvNone 1 collectState).money)
      = 0 := by
  obtain ⟨h1, h2, h3, _⟩ := c6_collect_exactly_once oracle0 mvNone 1 collectState
    rfl (by norm_num [baseState, collectState]) rfl
  exact ⟨h1, h2, h3⟩

/-- The horizontal intent delta is at most 5 in absolute value. -/
lemma moveDx_abs (mv : Movement) : |moveDx mv| ≤ 5 := by
  have hS : ((SPEED : ℕ) : ℚ) = 5 := by norm_num [SPEED]
  rcases mv with ⟨u, d, l, r⟩
  rw [moveDx]
  dsimp only
  rw [hS]
  cases l <;> cases r <;>
    simp only [if_true, Bool.false_eq_true, if_false] <;>
    (rw [abs_le]; constructor <;> norm_num)

/-- The vertical intent delta is at most 5 in absolute value. -/
lemma moveDy_abs (mv : Movement) : |moveDy mv| ≤ 5 := by
  have hS : ((SPEED : ℕ) : ℚ) = 5 := by norm_num [SPEED]
  rcases mv with ⟨u, d, l, r⟩
  rw [moveDy]
  dsimp only
  rw [hS]
  cases u <;> cases d <;>
    simp only [if_true, Bool.false_eq_true, if_false] <;>
    (rw [abs_le]; constructor <;> norm_num)

/-- Characterisation of a collision-free placement: no wall rectangle
overlaps the 30 px player footprint at (nx, ny). -/
lemma collides_eq_false_iff (walls : List Wall) (nx ny : ℚ) :
    collides walls nx ny = false ↔
    ∀ w ∈ walls, ¬(nx + 30 > w.x ∧ nx < w.x + w.w ∧ ny + 30 > w.y ∧ ny < w.y + w.h) := by
  have hPS : ((PLAYER_SIZE : ℕ) : ℚ) = 30 := by norm_num [PLAYER_SIZE]
  simp [collides, hPS]

/-- An open interval of length at least 6 that contains a point lying
between x0 and a, where a is within 5 of x0, must contain x0 or a. -/
lemma interval_endpoints {l r x0 a c : ℚ} (hlen : 6 ≤ r - l)
    (h1 : min x0 a ≤ c) (h2 : c ≤ max x0 a) (hd : |a - x0| ≤ 5)
    (hm1 : l < c) (hm2 : c < r) :
    (l < x0 ∧ x0 < r) ∨ (l < a ∧ a < r) := by
  rcases abs_le.mp hd with ⟨hd1, hd2⟩
  by_contra hcon
  push_neg at hcon
  obtain ⟨hA, hB⟩ := hcon
  rcases le_total x0 a with h | h
  · rw [min_eq_left h] at h1
    rw [max_eq_right h] at h2
    have hx0r : x0 < r := lt_of_le_of_lt h1 hm2
    have hla : l < a := lt_of_lt_of_le hm1 h2
    have hlx0 : x0 ≤ l := by
      by_contra hh
      push_neg at hh
      linarith [hA hh]
    linarith [hB hla]
  · rw [min_eq_right h] at h1
    rw [max_eq_left h] at h2
    have har : a < r := lt_of_le_of_lt h1 hm2
    have hlx0 : l < x0 := lt_of_lt_of_le hm1 h2
    have hla : a ≤ l := by
      by_contra hh
      push_neg at hh
      linarith [hB hh]
    linarith [hA hlx0]

/-- The clamped x coordinate lies between the previous coordinate x0
(itself inside the clamp range) and the attempted coordinate a. -/
lemma clampX_between (a : ℚ) {x0 : ℚ} (h1 : 10 ≤ x0) (h2 : x0 ≤ 560) :
    min x0 a ≤ clampX a ∧ clampX a ≤ max x0 a := by
  have hCW : (CANVAS_WIDTH : ℚ) - (PLAYER_SIZE : ℚ) - 10 = 560 := by
    norm_num [CANVAS_WIDTH, PLAYER_SIZE]
  rcases le_total a 10 with ha | ha
  · have hcl : clampX a = 10 := by
      rw [clampX, hCW, min_eq_right (by linarith), max_eq_left ha]
    rw [hcl]
    exact ⟨le_trans (min_le_right _ _) ha, le_trans h1 (le_max_left _ _)⟩
  · rcases le_total a 560 with hb | hb
    · have hcl : clampX a = a := by
        rw [clampX, hCW, min_eq_right hb, max_eq_right ha]
      rw [hcl]
      exact ⟨min_le_right _ _, le_max_right _ _⟩
    · have hcl : clampX a = 560 := by
        rw [clampX, hCW, min_eq_left hb, max_eq_right (by norm_num)]
      rw [hcl]
      exact ⟨le_trans (min_le_left _ _) h2, le_trans hb (le_max_right _ _)⟩

/-- The clamped y coordinate lies between the previous coordinate y0
(itself inside the clamp range) and the attempted coordinate b. -/
lemma clampY_between (b : ℚ) {y0 : ℚ} (h1 : 10 ≤ y0) (h2 : y0 ≤ 360) :
    min y0 b ≤ clampY b ∧ clampY b ≤ max y0 b := by
  have hCH : (CANVAS_HEIGHT : ℚ) - (PLAYER_SIZE : ℚ) - 10 = 360 := by
    norm_num [CANVAS_HEIGHT, PLAYER_SIZE]
  rcases le_total b 10 with hb1 | hb1
  · have hcl : clampY b = 10 := by
      rw [clampY, hCH, min_eq_right (by linarith), max_eq_left hb1]
    rw [hcl]
    exact ⟨le_trans (min_le_right _ _) hb1, le_trans h1 (le_max_left _ _)⟩
  · rcases le_total b 360 with hb2 | hb2
    · have hcl : clampY b = b := by
        rw [clampY, hCH, min_eq_right hb2, max_eq_right hb1]
      rw [hcl]
      exact ⟨min_le_right _ _, le_max_right _ _⟩
    · have hcl : clampY b = 360 := by
        rw [clampY, hCH, min_eq_left hb2, max_eq_right (by norm_num)]
      rw [hcl]
      exact ⟨le_trans (min_le_left _ _) h2, le_trans hb2 (le_max_right _ _)⟩

/-- The clamped x coordinate is always inside [10, 560]. -/
lemma clampX_bounds (a : ℚ) : 10 ≤ clampX a ∧ clampX a ≤ 560 := by
  have hCW : (CANVAS_WIDTH : ℚ) - (PLAYER_SIZE : ℚ) - 10 = 560 := by
    norm_num [CANVAS_WIDTH, PLAYER_SIZE]
  rw [clampX, hCW]
  exact ⟨le_max_left _ _, max_le (by norm_num) (min_le_left _ _)⟩

/-- The clamped y coordinate is always inside [10, 360]. -/
lemma clampY_bounds (b : ℚ) : 10 ≤ clampY b ∧ clampY b ≤ 360 := by
  have hCH : (CANVAS_HEIGHT : ℚ) - (PLAYER_SIZE : ℚ) - 10 = 360 := by
    norm_num [CANVAS_HEIGHT, PLAYER_SIZE]
  rw [clampY, hCH]
  exact ⟨le_max_left _ _, max_le (by norm_num) (min_le_left _ _)⟩

/-- Clamping a collision-checked position cannot create a collision: when
walls have nonnegative extents, the previous position (x0, y0) is inside
the clamp range, the attempted coordinates a, b are within one step (5 px)
of it, and all four corner combinations of old and attempted coordinates
are collision free, then so is the clamped point. -/
lemma clamp_no_collide (walls : List Wall)
    (hwalls : ∀ w ∈ walls, 0 ≤ w.w ∧ 0 ≤ w.h)
    (x0 y0 a b : ℚ)
    (hx1 : 10 ≤ x0) (hx2 : x0 ≤ 560) (hy1 : 10 ≤ y0) (hy2 : y0 ≤ 360)
    (hax : |a - x0| ≤ 5) (hbyd : |b - y0| ≤ 5)
    (h00 : collides walls x0 y0 = false) (hA0 : collides walls a y0 = false)
    (h0B : collides walls x0 b = false) (hAB : collides walls a b = false) :
    collides walls (clampX a) (clampY b) = false := by
  rw [collides_eq_false_iff] at h00 hA0 h0B hAB ⊢
  intro w hw
  rintro ⟨hc1, hc2, hc3, hc4⟩
  obtain ⟨hww, hwh⟩ := hwalls w hw
  obtain ⟨hbx1, hbx2⟩ := clampX_between a hx1 hx2
  obtain ⟨hby1, hby2⟩ := clampY_between b hy1 hy2
  have hxcase : (w.x - 30 < x0 ∧ x0 < w.x + w.w) ∨ (w.x - 30 < a ∧ a < w.x + w.w) :=
    interval_endpoints (by linarith) hbx1 hbx2 hax (by linarith) hc2
  have hycase : (w.y - 30 < y0 ∧ y0 < w.y + w.h) ∨ (w.y - 30 < b ∧ b < w.y + w.h) :=
    interval_endpoints (by linarith) hby1 hby2 hbyd (by linarith) hc4
  rcases hxcase with ⟨ha1, ha2⟩ | ⟨ha1, ha2⟩ <;> rcases hycase with ⟨hb1, hb2⟩ | ⟨hb1, hb2⟩
  · exact h00 w hw ⟨by linarith, ha2, by linarith, hb2⟩
  · exact h0B w hw ⟨by linarith, ha2, by linarith, hb2⟩
  · exact hA0 w hw ⟨by linarith, ha2, by linarith, hb2⟩
  · exact hAB w hw ⟨by linarith, ha2, by linarith, hb2⟩

/-- The movement resolution never moves the player into a wall: starting
from a collision-free interior position, the resolved and clamped
position is still collision free. -/
lemma moveResolve_no_collide (walls : List Wall) (pp : Point) (mv : Movement)
    (hwalls : ∀ w ∈ walls, 0 ≤ w.w ∧ 0 ≤ w.h)
    (h0 : collides walls pp.x pp.y = false)
    (hx1 : 10 ≤ pp.x) (hx2 : pp.x ≤ 560) (hy1 : 10 ≤ pp.y) (hy2 : pp.y ≤ 360) :
    collides walls (moveResolve walls pp mv).x (moveResolve walls pp mv).y = false := by
  have hdx : |pp.x + moveDx mv - pp.x| ≤ 5 := by
    rw [add_sub_cancel_left]
    exact moveDx_abs mv
  have hdy : |pp.y + moveDy mv - pp.y| ≤ 5 := by
    rw [add_sub_cancel_left]
    exact moveDy_abs mv
  have hzx : |pp.x - pp.x| ≤ 5 := by
    rw [sub_self, abs_zero]
    norm_num
  have hzy : |pp.y - pp.y| ≤ 5 := by
    rw [sub_self, abs_zero]
    norm_num
  rw [moveResolve]
  cases hc1 : collides walls (pp.x + moveDx mv) pp.y with
  | true =>
    cases hc2 : collides walls pp.x (pp.y + moveDy mv) with
    | true =>
      simp only [hc1, hc2, if_true, h0, Bool.false_eq_true, if_false]
      exact clamp_no_collide walls hwalls pp.x pp.y pp.x pp.y hx1 hx2 hy1 hy2
        hzx hzy h0 h0 h0 h0
    | false =>
      simp only [hc1, hc2, if_true, Bool.false_eq_true, if_false]
      exact clamp_no_collide walls hwalls pp.x pp.y pp.x (pp.y + moveDy mv) hx1 hx2 hy1 hy2
        hzx hdy h0 h0 hc2 hc2
  | false =>
    cases hc2 : collides walls pp.x (pp.y + moveDy mv) with
    | true =>
      simp only [hc1, hc2, if_true, Bool.false_eq_true, if_false]
      exact clamp_no_collide walls hwalls pp.x pp.y (pp.x + moveDx mv) pp.y hx1 hx2 hy1 hy2
        hdx hzy h0 hc1 h0 hc1
    | false =>
      cases hc3 : collides walls (pp.x + moveDx mv) (pp.y + moveDy mv) with
      | true =>
        simp only [hc1, hc2, hc3, if_true, Bool.false_eq_true, if_false]
        exact clamp_no_collide walls hwalls pp.x pp.y pp.x pp.y hx1 hx2 hy1 hy2
          hzx hzy h0 h0 h0 h0
      | false =>
        simp only [hc1, hc2, hc3, Bool.false_eq_true, if_false]
        exact clamp_no_collide walls hwalls pp.x pp.y (pp.x + moveDx mv) (pp.y + moveDy mv)
          hx1 hx2 hy1 hy2 hdx hdy h0 hc1 hc2 hc3

/-- The resolved position is always inside [10, 560] x [10, 360]. -/
lemma moveResolve_bounds (walls : List Wall) (pp : Point) (mv : Movement) :
    10 ≤ (moveResolve walls pp mv).x ∧ (moveResolve walls pp mv).x ≤ 560 ∧
    10 ≤ (moveResolve walls pp mv).y ∧ (moveResolve walls pp mv).y ≤ 360 := by
  rw [moveResolve]
  exact ⟨(clampX_bounds _).1, (clampX_bounds _).2, (clampY_bounds _).1, (clampY_bounds _).2⟩

/-- C1 counterexample: the claimed invariant does not hold for every
reachable state.  The state generated for floor 7 (reachable by clearing
floors 1 to 6) spawns the player at (50, 50) while obstacle 6 of the
generated layout is the rectangle (65, 65, 25, 40), which overlaps the
30 px player footprint. -/
theorem c1_counterexample :
    (initFloor oracle0 7 0).playerPos = { x := 50, y := 50 } ∧
    (initFloor oracle0 7 0).walls = generateWalls 7 ∧
    collides (generateWalls 7) 50 50 = true := by
  refine ⟨rfl, rfl, ?_⟩
  rw [collides, List.any_eq_true]
  refine ⟨obstacleWall 7 6, ?_, ?_⟩
  · rw [generateWalls]
    refine List.mem_append_right _ ?_
    exact List.mem_map.mpr ⟨6, List.mem_range.mpr (by omega), rfl⟩
  · norm_num [obstacleWall, CANVAS_WIDTH, CANVAS_HEIGHT, PLAYER_SIZE]

/-- C1 (amended): the per-tick transition preserves the separation
invariant.  From any state whose walls have nonnegative extents, whose
player footprint overlaps no wall and whose position lies in the interior
[10, 560] x [10, 360], any tick that does not trigger the timeout floor
reset yields a state whose player footprint overlaps no wall and whose
position lies in that interior.  (Floor generation itself does not
establish the invariant: see the counterexample at floor 7.) -/
theorem c1_tick_preserves_separation (o : Oracle) (mv : Movement) (dt : ℚ) (prev : GameState)
    (hwalls : ∀ w ∈ prev.walls, 0 ≤ w.w ∧ 0 ≤ w.h)
    (htime : 0 < prev.timeLeft - dt)
    (h0 : collides prev.walls prev.playerPos.x prev.playerPos.y = false)
    (hx1 : 10 ≤ prev.playerPos.x) (hx2 : prev.playerPos.x ≤ 560)
    (hy1 : 10 ≤ prev.playerPos.y) (hy2 : prev.playerPos.y ≤ 360) :
    collides (tick o mv dt prev).walls (tick o mv dt prev).playerPos.x
        (tick o mv dt prev).playerPos.y = false ∧
    10 ≤ (tick o mv dt prev).playerPos.x ∧ (tick o mv dt prev).playerPos.x ≤ 560 ∧
    10 ≤ (tick o mv dt prev).playerPos.y ∧ (tick o mv dt prev).playerPos.y ≤ 360 := by
  cases hfr : (prev.isPaused || prev.isGameOver || prev.showTerminal) with
  | true =>
    rw [tick_frozen o mv dt prev hfr]
    exact ⟨h0, hx1, hx2, hy1, hy2⟩
  | false =>
    cases hc : (prev.guards.map (guardTick o.guardStep)).any
        (caughtBy (playerNext prev mv)) with
    | true =>
      rw [tick_capture o mv dt prev hfr htime hc]
      exact ⟨h0, hx1, hx2, hy1, hy2⟩
    | false =>
      rw [tick_normal o mv dt prev hfr htime hc]
      dsimp only
      obtain ⟨hb1, hb2, hb3, hb4⟩ := moveResolve_bounds prev.walls prev.playerPos mv
      exact ⟨moveResolve_no_collide prev.walls prev.playerPos mv hwalls h0 hx1 hx2 hy1 hy2,
        hb1, hb2, hb3, hb4⟩

/-- Witness for C1 at a concrete state with a single interior wall away
from the player, moving right. -/
theorem c1_witness :
    collides (tick oracle0 mvRight 1 walledState).walls
        (tick oracle0 mvRight 1 walledState).playerPos.x
        (tick oracle0 mvRight 1 walledState).playerPos.y = false ∧
    10 ≤ (tick oracle0 mvRight 1 walledState).playerPos.x ∧
    (tick oracle0 mvRight 1 walledState).playerPos.x ≤ 560 ∧
    10 ≤ (tick oracle0 mvRight 1 walledState).playerPos.y ∧
    (tick oracle0 mvRight 1 walledState).playerPos.y ≤ 360 := by
  refine c1_tick_preserves_separation oracle0 mvRight 1 walledState ?_ ?_ ?_ ?_ ?_ ?_ ?_
  · intro w hw
    rw [walledState] at hw
    simp only [List.mem_singleton] at hw
    rw [hw]
    norm_num
  · norm_num [walledState, baseState]
  · norm_num [collides, walledState, baseState, PLAYER_SIZE]
  · norm_num [walledState, baseState]
  · norm_num [walledState, baseState]
  · norm_num [walledState, baseState]
  · norm_num [walledState, baseState]

end Heist

